import Mathlib

/-!
Shallow embedding of the BugBountyKSP API client
(src/bugbounty_ksp/api/client.py, exceptions.py, models.py).

The client is synchronous Python built on `requests`.  The embedding keeps
the source structure: JSON values decoded from response bodies are `JVal`,
the slice of a `requests.Response` the client reads is `HTTPResponse`, the
transport outcome of one HTTP call is `TransportResult`, and every client
method returns the list of dispatch calls it issued (its network trace)
paired with a `PyOutcome` (normal return, raised `APIError` subclass, or
raised non-API Python exception such as `KeyError`).
-/

set_option autoImplicit false

namespace BugBountyKSP

/-- JSON values as decoded by `response.json()` (the Python `json` module).
Numbers are modelled as integers, which covers every value the client code
inspects; no claim depends on fractional numerics. -/
inductive JVal where
  | null
  | bool (b : Bool)
  | num (n : Int)
  | str (s : String)
  | arr (xs : List JVal)
  | obj (fields : List (String × JVal))

/-- `isinstance(x, dict)` on a decoded JSON value. -/
def JVal.isObj : JVal → Bool
  | .obj _ => true
  | _ => false

/-- One hexadecimal digit, lowercase, as produced by `json.dumps` escapes. -/
def hexDigit (n : Nat) : Char :=
  if n < 10 then Char.ofNat (48 + n) else Char.ofNat (87 + n)

/-- Four-digit lowercase hex rendering used in `\uXXXX` escapes. -/
def hex4 (n : Nat) : String :=
  String.mk [hexDigit (n / 4096 % 16), hexDigit (n / 256 % 16),
             hexDigit (n / 16 % 16), hexDigit (n % 16)]

/-- Escaping of one character inside a JSON string literal, following
`json.dumps` with its default `ensure_ascii=True`. -/
def jsonEscapeChar (c : Char) : String :=
  if c = '"' then "\\\""
  else if c = '\\' then "\\\\"
  else if c = '\n' then "\\n"
  else if c = '\r' then "\\r"
  else if c = '\t' then "\\t"
  else if c.toNat = 8 then "\\b"
  else if c.toNat = 12 then "\\f"
  else if 32 ≤ c.toNat ∧ c.toNat ≤ 126 then String.mk [c]
  else if c.toNat < 65536 then "\\u" ++ hex4 c.toNat
  else
    "\\u" ++ hex4 (55296 + (c.toNat - 65536) / 1024) ++
    "\\u" ++ hex4 (56320 + (c.toNat - 65536) % 1024)

/-- A JSON string literal with quotes and escapes, as `json.dumps` emits it. -/
def jsonQuote (s : String) : String :=
  "\"" ++ String.join (s.data.map jsonEscapeChar) ++ "\""

mutual

/-- `json.dumps` with default options over the `JVal` model (separators
", " and ": ", no key sorting). -/
def jsonDumps : JVal → String
  | .null => "null"
  | .bool true => "true"
  | .bool false => "false"
  | .num n => toString n
  | .str s => jsonQuote s
  | .arr xs => "[" ++ jsonDumpsArr xs ++ "]"
  | .obj fs => "\x7b" ++ jsonDumpsObj fs ++ "\x7d"

/-- Comma-joined rendering of a JSON array body. -/
def jsonDumpsArr : List JVal → String
  | [] => ""
  | x :: rest =>
    jsonDumps x ++ (if rest.isEmpty then "" else ", ") ++ jsonDumpsArr rest

/-- Comma-joined rendering of a JSON object body. -/
def jsonDumpsObj : List (String × JVal) → String
  | [] => ""
  | (k, v) :: rest =>
    jsonQuote k ++ ": " ++ jsonDumps v ++ (if rest.isEmpty then "" else ", ") ++
    jsonDumpsObj rest

end

/-- Python `str()` of a decoded JSON value, used only to build error message
text from a decoded error payload.  For the value shapes the messages are
actually built from in practice the payload field is a string, and `str()`
of a `str` is itself; non-string values are abstracted by the JSON
rendering (no claim depends on that message text). -/
def pyStr (j : JVal) : String :=
  match j with
  | .str s => s
  | other => jsonDumps other

/-- The slice of a `requests.Response` the client reads: the status code,
the outcome of `.json()` (`none` models a body on which `.json()` raises),
and the raw `.text`. -/
structure HTTPResponse where
  status_code : Nat
  body : Option JVal
  text : String

/-- The kind tags of the exception taxonomy in exceptions.py:
`AuthenticationError`, `ValidationError`, `RateLimitError`,
`NotFoundError`, `NetworkError` and the bare `APIError` base. -/
inductive ErrKind where
  | authentication
  | validation
  | rateLimit
  | notFound
  | network
  | genericAPI
deriving DecidableEq

/-- An `APIError` instance: kind tag, message, optional carried status
code, optional structured payload (the decoded error body). -/
structure APIErr where
  kind : ErrKind
  message : String
  status_code : Option Nat
  response : Option JVal

/-- Outcome of running a piece of the Python client: normal return,
a raised `APIError` subclass, or a raised non-API Python exception
(`KeyError`, `AttributeError`, `json.JSONDecodeError`, ...). -/
inductive PyOutcome (α : Type) where
  | ok (a : α)
  | apiErr (e : APIErr)
  | pyExc (name : String)

/-- The kind of the error an outcome raised, if it raised an `APIError`. -/
def outcomeKind {α : Type} : PyOutcome α → Option ErrKind
  | .apiErr e => some e.kind
  | _ => none

/-- Sequencing of Python statements that may raise. -/
def PyOutcome.bind {α β : Type} : PyOutcome α → (α → PyOutcome β) → PyOutcome β
  | .ok a, f => f a
  | .apiErr e, _ => .apiErr e
  | .pyExc n, _ => .pyExc n

instance : Monad PyOutcome where
  pure := .ok
  bind := PyOutcome.bind

/-- `try: error_data = response.json() except: error_data = {"error":
response.text}` from `_handle_response_errors`. -/
def errorData (r : HTTPResponse) : JVal :=
  match r.body with
  | some j => j
  | none => .obj [("error", .str r.text)]

/-- Whether the error payload `_handle_response_errors` works on is a dict
(it always is when `.json()` fails; a decoded non-dict JSON body makes the
`error_data.get` call raise `AttributeError`). -/
def errorDataIsDict (r : HTTPResponse) : Bool :=
  (errorData r).isObj

/-- `BugBountyKSPAPIClient._handle_response_errors`: returns normally below
400, otherwise raises the classified `APIError` subclass built from the
status code and the decoded (or fallback) error payload. -/
def handle_response_errors (r : HTTPResponse) : PyOutcome Unit :=
  if r.status_code < 400 then .ok ()
  else
    match errorData r with
    | .obj fs =>
      let msg :=
        match fs.lookup "error" with
        | some v => pyStr v
        | none => "HTTP " ++ toString r.status_code
      if r.status_code = 401 then
        .apiErr ⟨.authentication, "Unauthorized: " ++ msg ++ ". Check your API key.",
                 some 401, some (.obj fs)⟩
      else if r.status_code = 403 then
        .apiErr ⟨.authentication, "Forbidden: " ++ msg ++ ". Check your permissions.",
                 some 403, some (.obj fs)⟩
      else if r.status_code = 404 then
        .apiErr ⟨.notFound, "Not found: " ++ msg, some 404, some (.obj fs)⟩
      else if r.status_code = 400 ∨ r.status_code = 422 then
        .apiErr ⟨.validation, "Validation error: " ++ msg,
                 some r.status_code, some (.obj fs)⟩
      else if r.status_code = 429 then
        .apiErr ⟨.rateLimit, "Rate limit exceeded. Please try again later.",
                 some 429, some (.obj fs)⟩
      else
        .apiErr ⟨.genericAPI, "API error: " ++ msg,
                 some r.status_code, some (.obj fs)⟩
    | _ => .pyExc "AttributeError"

/-- The status-to-kind table as the spec states it in section 4.1:
401/403 Authentication, 404 NotFound, 400/422 Validation, 429 RateLimit,
any other status at or above 400 Generic-API. -/
def specKindTable (status : Nat) : ErrKind :=
  if status = 401 ∨ status = 403 then .authentication
  else if status = 404 then .notFound
  else if status = 400 ∨ status = 422 then .validation
  else if status = 429 then .rateLimit
  else .genericAPI

/-- The arguments of one `_request` dispatch call: HTTP method, endpoint,
full URL, the `data` argument (the request payload dict, `None` when
absent), the `files` argument (multipart parts keyed by part name, each
part a `(filename, file_bytes)` tuple, `None` when absent), and the
timeout in seconds. -/
structure RequestArgs where
  method : String
  endpoint : String
  url : String
  data : Option (List (String × JVal))
  files : Option (List (String × String × List Nat))
  timeout : Nat

/-- Python truthiness of an `Optional[Dict]` value: `None` and the empty
dict are falsy (`if files:` in `_request`). -/
def optListTruthy {α : Type} : Option (List α) → Bool
  | some l => !l.isEmpty
  | none => false

/-- The wire shape `_request` gives the body. -/
inductive EncodedBody where
  | jsonBody (j : JVal)
  | multipart (fields : List (String × JVal)) (parts : List (String × String × List Nat))
  | empty

/-- The branch in `_request`: when `files` is truthy the call is sent as
multipart form data with `data` as accompanying form fields; otherwise the
call is sent with `json=data`, which is a JSON body (or no body when
`data` is `None`). -/
def encodeRequest (args : RequestArgs) : EncodedBody :=
  if optListTruthy args.files then
    .multipart (args.data.getD []) (args.files.getD [])
  else
    match args.data with
    | some d => .jsonBody (.obj d)
    | none => .empty

/-- What the transport (`self._session.request`) did for one call: a
response came back, or a `requests.Timeout`, `requests.ConnectionError`,
or another `requests.RequestException` was raised. -/
inductive TransportResult where
  | response (r : HTTPResponse)
  | timeout
  | connectionError (msg : String)
  | requestException (msg : String)

/-- `BugBountyKSPAPIClient._request` given the transport outcome: transport
exceptions are wrapped as `NetworkError` (message only, no status code);
a response is passed through `_handle_response_errors`, whose raised
errors propagate (they are not `requests` exceptions), and is returned
unchanged when that check passes. -/
def sendRequest (args : RequestArgs) (t : TransportResult) : PyOutcome HTTPResponse :=
  match t with
  | .response r =>
    match handle_response_errors r with
    | .ok _ => .ok r
    | .apiErr e => .apiErr e
    | .pyExc n => .pyExc n
  | .timeout =>
    .apiErr ⟨.network, "Request timeout after " ++ toString args.timeout ++ "s", none, none⟩
  | .connectionError m =>
    .apiErr ⟨.network, "Connection failed: " ++ m, none, none⟩
  | .requestException m =>
    .apiErr ⟨.network, "Request failed: " ++ m, none, none⟩

/-- `REQUEST_TIMEOUT = 30` from the client class. -/
def REQUEST_TIMEOUT : Nat := 30

/-- The successfully constructed client state: credential, normalized base
URL, TLS flag, and the session headers. -/
structure Client where
  api_key : String
  api_url : String
  verify_ssl : Bool
  headers : List (String × String)

/-- A Python value passed as the `api_key` argument; the constructor
checks truthiness and `isinstance(api_key, str)`, so non-string shapes
must be representable. -/
inductive PyVal where
  | none
  | str (s : String)
  | int (n : Int)
  | boolean (b : Bool)

/-- `api_url.rstrip("/")`: drop every trailing slash. -/
def rstripSlash (s : String) : String :=
  String.mk ((s.data.reverse.dropWhile (fun c => c = '/')).reverse)

/-- Python `s.startswith(pre)`, modelled on the character list. -/
def pyStartsWith (s pre : String) : Bool :=
  pre.data.isPrefixOf s.data

/-- The `_request` call issued by `_verify_authentication`:
`GET /api/auth/verify` with no body, no files, and `timeout=5`. -/
def probeArgs (c : Client) : RequestArgs :=
  ⟨"GET", "/api/auth/verify", c.api_url ++ "/api/auth/verify", none, none, 5⟩

/-- `BugBountyKSPAPIClient._verify_authentication` given the transport
outcome of the probe.  A returned response with status other than 200
raises `AuthenticationError`; errors raised inside `_request` (all
`APIError` subclasses, including `NetworkError` wrapping transport
failures) propagate, since the `except requests.RequestException` clause
matches none of them. -/
def verify_authentication (c : Client) (probe : TransportResult) : PyOutcome Unit :=
  match sendRequest (probeArgs c) probe with
  | .ok r =>
    if r.status_code ≠ 200 then
      .apiErr ⟨.authentication,
               "Invalid API key. Verify at: https://bugbounty-ksp.com/settings/api-keys",
               none, none⟩
    else .ok ()
  | .apiErr e => .apiErr e
  | .pyExc n => .pyExc n

/-- `BugBountyKSPAPIClient.__init__`: validate the credential shape (raising
`ValidationError` before any transport is touched), normalize the base URL,
build the session headers, then run the authentication probe.  The first
component of the result is the list of dispatch calls issued. -/
def clientInit (api_key : PyVal) (api_url : String) (verify_ssl : Bool)
    (probe : TransportResult) : List RequestArgs × PyOutcome Client :=
  match api_key with
  | .str s =>
    if s = "" then
      ([], .apiErr ⟨.validation, "API key must be a non-empty string", none, none⟩)
    else if !pyStartsWith s "sk_" then
      ([], .apiErr ⟨.validation, "Invalid API key format. Must start with \x27sk_\x27",
                    none, none⟩)
    else
      let c : Client :=
        ⟨s, rstripSlash api_url, verify_ssl,
         [("Authorization", "Bearer " ++ s),
          ("User-Agent", "BugBountyKSP-SDK/1.0"),
          ("Accept", "application/json")]⟩
      ([probeArgs c],
        match verify_authentication c probe with
        | .ok _ => .ok c
        | .apiErr e => .apiErr e
        | .pyExc n => .pyExc n)
  | _ => ([], .apiErr ⟨.validation, "API key must be a non-empty string", none, none⟩)

/-- `result["k"]` on a decoded JSON value: the value when present,
`KeyError` when the key is missing, `TypeError` when the value is not a
dict. -/
def jIndex (j : JVal) (k : String) : PyOutcome JVal :=
  match j with
  | .obj fs =>
    match fs.lookup k with
    | some v => .ok v
    | none => .pyExc "KeyError"
  | _ => .pyExc "TypeError"

/-- `result.get(k, default)` on a decoded JSON value; `AttributeError`
when the value is not a dict. -/
def jGetD (j : JVal) (k : String) (d : JVal) : PyOutcome JVal :=
  match j with
  | .obj fs => .ok ((fs.lookup k).getD d)
  | _ => .pyExc "AttributeError"

/-- `PublishResponse` from models.py; field values keep the decoded JSON
shape, since the dataclass does not enforce its annotations. -/
structure PublishResponse where
  success : Bool
  article_id : JVal
  published_id : JVal
  web_url : JVal
  images : JVal
  created_at : JVal

/-- `DeleteResponse` from models.py. -/
structure DeleteResponse where
  success : Bool
  article_id : JVal
  published_id : JVal
  deleted_at : JVal
  archived : JVal

/-- The `data` dict `publish_article` builds: title, content, the
frontmatter dict serialized to a single JSON string with `json.dumps`,
and the original file path. -/
def publishPayload (title content : String) (frontmatter : JVal)
    (file_path : String) : List (String × JVal) :=
  [("title", .str title), ("content", .str content),
   ("frontmatter", .str (jsonDumps frontmatter)),
   ("file_path", .str file_path)]

/-- One entry of the `files` dict `publish_article` builds from `images`:
key `images[<filename>]`, value the `(filename, file_bytes)` tuple. -/
def imagePart (p : String × List Nat) : String × String × List Nat :=
  ("images[" ++ p.1 ++ "]", p.1, p.2)

/-- The tail of `publish_article`: `result = response.json()` (raising on
an undecodable body) followed by the `PublishResponse` construction with
its subscript lookups and `result.get("images", {})`. -/
def parsePublishResponse (r : HTTPResponse) : PyOutcome PublishResponse :=
  match r.body with
  | Option.none => .pyExc "JSONDecodeError"
  | some j => do
    let aid ← jIndex j "article_id"
    let pid ← jIndex j "published_id"
    let wurl ← jIndex j "web_url"
    let imgs ← jGetD j "images" (.obj [])
    let cat ← jIndex j "created_at"
    pure ⟨true, aid, pid, wurl, imgs, cat⟩

/-- The tail of `delete_article`: decode the body and build the
`DeleteResponse`, with `result.get("archived", True)`. -/
def parseDeleteResponse (r : HTTPResponse) : PyOutcome DeleteResponse :=
  match r.body with
  | Option.none => .pyExc "JSONDecodeError"
  | some j => do
    let aid ← jIndex j "article_id"
    let pid ← jIndex j "published_id"
    let dat ← jIndex j "deleted_at"
    let arch ← jGetD j "archived" (.bool true)
    pure ⟨true, aid, pid, dat, arch⟩

/-- The dispatch-and-decode tail of `publish_article`: `self._request(...)`
followed by the response parsing; an error raised by the dispatch
propagates. -/
def dispatchPublish (args : RequestArgs) (t : TransportResult) : PyOutcome PublishResponse :=
  match sendRequest args t with
  | .ok r => parsePublishResponse r
  | .apiErr e => .apiErr e
  | .pyExc n => .pyExc n

/-- The dispatch-and-decode tail of `delete_article`. -/
def dispatchDelete (args : RequestArgs) (t : TransportResult) : PyOutcome DeleteResponse :=
  match sendRequest args t with
  | .ok r => parseDeleteResponse r
  | .apiErr e => .apiErr e
  | .pyExc n => .pyExc n

/-- `BugBountyKSPAPIClient.publish_article`: validate title/content and the
frontmatter shape (raising `ValidationError` before any dispatch), build
the payload dict and the `images[<filename>]` parts, POST to
`/api/articles/publish` (passing `files` only when non-empty), and decode
the response. -/
def publish_article (c : Client) (title content : String) (frontmatter : JVal)
    (images : List (String × List Nat)) (file_path : String)
    (t : TransportResult) : List RequestArgs × PyOutcome PublishResponse :=
  if title = "" ∨ content = "" then
    ([], .apiErr ⟨.validation, "Title and content are required", none, none⟩)
  else if !frontmatter.isObj then
    ([], .apiErr ⟨.validation, "Frontmatter must be a dictionary", none, none⟩)
  else
    let files := images.map imagePart
    let args : RequestArgs :=
      ⟨"POST", "/api/articles/publish", c.api_url ++ "/api/articles/publish",
       some (publishPayload title content frontmatter file_path),
       if files.isEmpty then none else some files, REQUEST_TIMEOUT⟩
    ([args], dispatchPublish args t)

/-- `BugBountyKSPAPIClient.get_article`: GET the article endpoint and
return the decoded JSON body verbatim. -/
def get_article (c : Client) (published_id : String)
    (t : TransportResult) : List RequestArgs × PyOutcome JVal :=
  let args : RequestArgs :=
    ⟨"GET", "/api/articles/" ++ published_id,
     c.api_url ++ "/api/articles/" ++ published_id, none, none, REQUEST_TIMEOUT⟩
  ([args],
    match sendRequest args t with
    | .ok r =>
      match r.body with
      | Option.none => .pyExc "JSONDecodeError"
      | some j => .ok j
    | .apiErr e => .apiErr e
    | .pyExc n => .pyExc n)

/-- `BugBountyKSPAPIClient.delete_article`: DELETE the article endpoint and
decode the response into a `DeleteResponse`. -/
def delete_article (c : Client) (published_id : String)
    (t : TransportResult) : List RequestArgs × PyOutcome DeleteResponse :=
  let args : RequestArgs :=
    ⟨"DELETE", "/api/articles/" ++ published_id,
     c.api_url ++ "/api/articles/" ++ published_id, none, none, REQUEST_TIMEOUT⟩
  ([args], dispatchDelete args t)

/-- A concrete constructed client, used by concrete instantiations. -/
def testClient : Client :=
  ⟨"sk_test", "https://api.bugbounty-ksp.com", true,
   [("Authorization", "Bearer sk_test"),
    ("User-Agent", "BugBountyKSP-SDK/1.0"),
    ("Accept", "application/json")]⟩

/-- The credential shape check the constructor performs, in one predicate:
a string that is truthy and starts with `sk_`. -/
def validKeyFormat : PyVal → Bool
  | .str s => !(s = "") && pyStartsWith s "sk_"
  | _ => false

/-! ## Helper lemmas -/

theorem isObj_iff_exists (j : JVal) : j.isObj = true ↔ ∃ fs, j = .obj fs := by
  cases j <;> simp [JVal.isObj]

/-- For every response whose error payload is a dict and whose status code
is at least 400, `_handle_response_errors` raises an `APIError` whose kind
is the table kind for the status and whose carried status code is the
response status code. -/
theorem handle_response_errors_classifies (r : HTTPResponse)
    (hb : errorDataIsDict r = true) (h4 : 400 ≤ r.status_code) :
    ∃ e : APIErr, handle_response_errors r = .apiErr e ∧
      e.kind = specKindTable r.status_code ∧
      e.status_code = some r.status_code := by
  obtain ⟨fs, hfs⟩ := (isObj_iff_exists (errorData r)).1 hb
  have hlt : ¬ r.status_code < 400 := by omega
  unfold handle_response_errors
  rw [if_neg hlt, hfs]
  split_ifs with h1 h2 h3 h4' h5
  · exact ⟨_, rfl, by simp [specKindTable, h1], by rw [h1]⟩
  · exact ⟨_, rfl, by simp [specKindTable, h2], by rw [h2]⟩
  · exact ⟨_, rfl, by simp [specKindTable, h1, h2, h3], by rw [h3]⟩
  · exact ⟨_, rfl, by simp [specKindTable, h1, h2, h3, h4'], rfl⟩
  · exact ⟨_, rfl, by simp [specKindTable, h1, h2, h3, h4', h5], by rw [h5]⟩
  · exact ⟨_, rfl, by simp [specKindTable, h1, h2, h3, h4', h5], rfl⟩

/-! ## Claim C1 -/

/-- Claim C1 (counterexample): a response with status 404 whose body
decodes to the JSON string "oops" makes `_handle_response_errors` raise
`AttributeError` from the `error_data.get` call (a decoded non-dict body
has no `.get`), so the dispatch raises no classified error of kind
NotFound for it, contrary to the claim as stated. -/
theorem C1_counterexample :
    handle_response_errors ⟨404, some (JVal.str "oops"), "\"oops\""⟩ =
      .pyExc "AttributeError" ∧
    outcomeKind (handle_response_errors ⟨404, some (JVal.str "oops"), "\"oops\""⟩) ≠
      some ErrKind.notFound := by
  refine ⟨rfl, ?_⟩
  intro h
  exact Option.noConfusion h

/-- Claim C1 (amended): for every response with status code in
{400, 401, 403, 404, 422, 429, 500} whose error payload is a dict (the
decoded body is a JSON object, or decoding failed and the raw-text
fallback is used), the raised error has exactly the table kind and
carries the response status code. -/
theorem C1_amended (r : HTTPResponse)
    (hs : r.status_code ∈ ([400, 401, 403, 404, 422, 429, 500] : List Nat))
    (hb : errorDataIsDict r = true) :
    ∃ e : APIErr, handle_response_errors r = .apiErr e ∧
      e.kind = specKindTable r.status_code ∧
      e.status_code = some r.status_code := by
  have h4 : 400 ≤ r.status_code := by
    simp only [List.mem_cons, List.mem_singleton, List.not_mem_nil, or_false] at hs
    rcases hs with h | h | h | h | h | h | h <;> omega
  exact handle_response_errors_classifies r hb h4

/-- Claim C1 (witness): the amended theorem applied to a concrete 500
response with an undecodable body. -/
theorem C1_amended_witness :
    ∃ e : APIErr, handle_response_errors ⟨500, Option.none, "boom"⟩ = .apiErr e ∧
      e.kind = specKindTable 500 ∧ e.status_code = some 500 :=
  C1_amended ⟨500, Option.none, "boom"⟩ (by decide) rfl

/-! ## Claim C2 -/

/-- Claim C2 (counterexample): constructing a client whose probe returns a
404 response fails with a NotFound error, not an Authentication error:
`_request` classifies the 404 before `_verify_authentication` ever
compares the status with 200, contrary to the claim as stated. -/
theorem C2_counterexample :
    outcomeKind (clientInit (.str "sk_test") "https://api.bugbounty-ksp.com" true
        (.response ⟨404, Option.none, "gone"⟩)).2 = some ErrKind.notFound ∧
    ErrKind.notFound ≠ ErrKind.authentication := by
  exact ⟨rfl, by decide⟩

/-- Claim C2 (amended): during the probe, a response with status 200
makes the verification succeed; a non-200 response below 400 fails with
Authentication, whatever its body; a response at or above 400 with a dict
error payload fails with the kind from the classification table (so
401/403 still give Authentication, but 404 gives NotFound, 400/422
Validation, 429 RateLimit, others Generic-API); every transport-level
failure fails with Network. -/
theorem C2_amended (c : Client) :
    (∀ r : HTTPResponse, r.status_code = 200 →
        verify_authentication c (.response r) = .ok ()) ∧
    (∀ r : HTTPResponse, r.status_code ≠ 200 → r.status_code < 400 →
        outcomeKind (verify_authentication c (.response r)) =
          some ErrKind.authentication) ∧
    (∀ r : HTTPResponse, 400 ≤ r.status_code → errorDataIsDict r = true →
        outcomeKind (verify_authentication c (.response r)) =
          some (specKindTable r.status_code)) ∧
    outcomeKind (verify_authentication c .timeout) = some ErrKind.network ∧
    (∀ m, outcomeKind (verify_authentication c (.connectionError m)) = some ErrKind.network) ∧
    (∀ m, outcomeKind (verify_authentication c (.requestException m)) = some ErrKind.network) := by
  have hok : ∀ r : HTTPResponse, r.status_code < 400 →
      handle_response_errors r = .ok () := by
    intro r hlt
    unfold handle_response_errors
    rw [if_pos hlt]
  refine ⟨?_, ?_, ?_, rfl, fun m => rfl, fun m => rfl⟩
  · intro r h200
    simp [verify_authentication, sendRequest, hok r (by omega), h200]
  · intro r h200 hlt
    simp [verify_authentication, sendRequest, hok r hlt, h200, outcomeKind]
  · intro r h4 hb
    obtain ⟨e, he, hk, _⟩ := handle_response_errors_classifies r hb (by omega)
    simp [verify_authentication, sendRequest, he, outcomeKind, hk]

/-- Claim C2 (witness): the amended theorem applied to a concrete client
with probes returning status 200 (success), status 201 (Authentication),
and status 429 with an undecodable body (the table kind). -/
theorem C2_amended_witness :
    verify_authentication testClient (.response ⟨200, Option.none, ""⟩) = .ok () ∧
    outcomeKind (verify_authentication testClient (.response ⟨201, Option.none, ""⟩)) =
      some ErrKind.authentication ∧
    outcomeKind (verify_authentication testClient (.response ⟨429, Option.none, ""⟩)) =
      some (specKindTable 429) :=
  ⟨(C2_amended testClient).1 ⟨200, Option.none, ""⟩ rfl,
   (C2_amended testClient).2.1 ⟨201, Option.none, ""⟩ (by decide) (by decide),
   (C2_amended testClient).2.2.1 ⟨429, Option.none, ""⟩ (by decide) rfl⟩

/-! ## Claim C3 -/

theorem imageKey_injective :
    Function.Injective (fun fn : String => "images[" ++ fn ++ "]") := by
  intro a b h
  apply String.ext
  have hd := congrArg String.data h
  simp only [String.data_append] at hd
  exact List.append_cancel_left (List.append_cancel_right hd)

theorem imageParts_keys_nodup (images : List (String × List Nat))
    (h : (images.map Prod.fst).Nodup) :
    ((images.map imagePart).map Prod.fst).Nodup := by
  have heq : (images.map imagePart).map Prod.fst =
      (images.map Prod.fst).map (fun fn => "images[" ++ fn ++ "]") := by
    simp only [List.map_map]
    rfl
  rw [heq]
  exact List.Nodup.map imageKey_injective h

/-- Claim C3: on a valid publish call, exactly one dispatch is made; with
an empty images mapping its body is JSON-encoded from the payload dict
with no multipart parts, and with at least one image it is encoded as
multipart form data whose form fields are the scalar payload and whose
parts are precisely the images, each under the distinct name
`images[<filename>]`. -/
theorem C3_publish_encoding (c : Client) (title content file_path : String)
    (fm : JVal) (images : List (String × List Nat)) (t : TransportResult)
    (ht : title ≠ "") (hc : content ≠ "") (hf : fm.isObj = true)
    (hnd : (images.map Prod.fst).Nodup) :
    ∃ args : RequestArgs,
      (publish_article c title content fm images file_path t).1 = [args] ∧
      (images = [] →
        encodeRequest args =
          .jsonBody (.obj (publishPayload title content fm file_path))) ∧
      (images ≠ [] →
        encodeRequest args =
          .multipart (publishPayload title content fm file_path) (images.map imagePart) ∧
        ((images.map imagePart).map Prod.fst).Nodup ∧
        ∀ p ∈ images, ("images[" ++ p.1 ++ "]", p.1, p.2) ∈ images.map imagePart) := by
  have hvc : ¬ (title = "" ∨ content = "") := by tauto
  have hobj : ¬ ((!fm.isObj) = true) := by rw [hf]; simp
  unfold publish_article
  rw [if_neg hvc, if_neg hobj]
  refine ⟨_, rfl, ?_, ?_⟩
  · intro h0
    subst h0
    rfl
  · intro h0
    have hne : (images.map imagePart).isEmpty = false := by
      cases images with
      | nil => exact absurd rfl h0
      | cons p rest => rfl
    refine ⟨?_, imageParts_keys_nodup images hnd, ?_⟩
    · simp [encodeRequest, optListTruthy, hne]
    · intro p hp
      exact List.mem_map_of_mem imagePart hp

/-- Claim C3 (witness): the theorem applied to a concrete publish with one
image, and to one with none via the same statement shape. -/
theorem C3_publish_encoding_witness :
    ∃ args : RequestArgs,
      (publish_article testClient "t" "c" (JVal.obj []) [("a.png", [1, 2])] "f.md"
          (.response ⟨200, some (JVal.obj []), ""⟩)).1 = [args] ∧
      (([("a.png", [1, 2])] : List (String × List Nat)) = [] →
        encodeRequest args =
          .jsonBody (.obj (publishPayload "t" "c" (JVal.obj []) "f.md"))) ∧
      (([("a.png", [1, 2])] : List (String × List Nat)) ≠ [] →
        encodeRequest args =
          .multipart (publishPayload "t" "c" (JVal.obj []) "f.md")
            ([("a.png", [1, 2])].map imagePart) ∧
        (([("a.png", [1, 2])].map imagePart).map Prod.fst).Nodup ∧
        ∀ p ∈ ([("a.png", [1, 2])] : List (String × List Nat)),
          ("images[" ++ p.1 ++ "]", p.1, p.2) ∈ [("a.png", [1, 2])].map imagePart) :=
  C3_publish_encoding testClient "t" "c" "f.md" (JVal.obj []) [("a.png", [1, 2])]
    (.response ⟨200, some (JVal.obj []), ""⟩)
    (by decide) (by decide) rfl (by decide)

/-! ## Claim C4 -/

/-- Claim C4 (counterexample): the publish dispatch with one image
populates both the body argument and the files argument, and the probe
dispatch issued during construction populates neither, contrary to
"exactly one of the two is populated, never both". -/
theorem C4_counterexample :
    ((publish_article testClient "t" "c" (JVal.obj []) [("a.png", [1, 2])] "f.md"
        (.response ⟨200, some (JVal.obj []), ""⟩)).1.map
      (fun args => (args.data.isSome, args.files.isSome))) = [(true, true)] ∧
    ((clientInit (.str "sk_test") "u" true (.response ⟨200, Option.none, ""⟩)).1.map
      (fun args => (args.data.isSome, args.files.isSome))) = [(false, false)] :=
  ⟨rfl, rfl⟩

/-- Claim C4 (amended): the probe, fetch and delete dispatches populate
neither the body argument nor the files argument; the publish dispatch
always populates the body argument, and populates the files argument
exactly when the images mapping is non-empty (in which case the files
argument is also truthy, so the multipart branch is taken and the body
travels as form fields rather than JSON). -/
theorem C4_amended (c : Client) (api_key : PyVal) (api_url : String) (vs : Bool)
    (title content file_path pid pid2 : String) (fm : JVal)
    (images : List (String × List Nat)) (t : TransportResult) :
    (∀ args ∈ (clientInit api_key api_url vs t).1,
        args.data = Option.none ∧ args.files = Option.none) ∧
    (∀ args ∈ (get_article c pid t).1,
        args.data = Option.none ∧ args.files = Option.none) ∧
    (∀ args ∈ (delete_article c pid2 t).1,
        args.data = Option.none ∧ args.files = Option.none) ∧
    (∀ args ∈ (publish_article c title content fm images file_path t).1,
        args.data.isSome = true ∧
        (args.files.isSome = true ↔ images ≠ []) ∧
        (optListTruthy args.files = true ↔ images ≠ [])) := by
  refine ⟨?_, ?_, ?_, ?_⟩
  · intro args h
    cases api_key with
    | str s =>
      by_cases h1 : s = ""
      · simp [clientInit, h1] at h
      · by_cases h2 : pyStartsWith s "sk_" = true
        · simp [clientInit, h1, h2] at h
          subst h
          exact ⟨rfl, rfl⟩
        · have h2f : pyStartsWith s "sk_" = false := by
            revert h2
            cases pyStartsWith s "sk_" <;> simp
          simp [clientInit, h1, h2f] at h
    | none => simp [clientInit] at h
    | int n => simp [clientInit] at h
    | boolean b => simp [clientInit] at h
  · intro args h
    simp only [get_article, List.mem_singleton] at h
    subst h
    exact ⟨rfl, rfl⟩
  · intro args h
    simp only [delete_article, List.mem_singleton] at h
    subst h
    exact ⟨rfl, rfl⟩
  · intro args h
    by_cases h1 : title = "" ∨ content = ""
    · simp [publish_article, h1] at h
    · by_cases h2 : fm.isObj = true
      · unfold publish_article at h
        rw [if_neg h1, if_neg (by rw [h2]; simp)] at h
        simp only [List.mem_singleton] at h
        subst h
        cases images with
        | nil => exact ⟨rfl, by simp, by simp [optListTruthy]⟩
        | cons p rest =>
          refine ⟨rfl, by simp [imagePart], by simp [optListTruthy, imagePart]⟩
      · have h2f : fm.isObj = false := by
          revert h2
          cases fm.isObj <;> simp
        unfold publish_article at h
        rw [if_neg h1, if_pos (by rw [h2f]; rfl)] at h
        simp at h

/-- Claim C4 (witness): the amended theorem applied to the concrete fetch
dispatch of a concrete client. -/
theorem C4_amended_witness :
    (⟨"GET", "/api/articles/" ++ "p", testClient.api_url ++ "/api/articles/" ++ "p",
        Option.none, Option.none, REQUEST_TIMEOUT⟩ : RequestArgs).data = Option.none ∧
    (⟨"GET", "/api/articles/" ++ "p", testClient.api_url ++ "/api/articles/" ++ "p",
        Option.none, Option.none, REQUEST_TIMEOUT⟩ : RequestArgs).files = Option.none :=
  (C4_amended testClient (.str "sk_test") "u" true "t" "c" "f" "p" "q" (JVal.obj []) []
      (.response ⟨200, Option.none, ""⟩)).2.1 _ (List.mem_singleton_self _)

/-! ## Claim C5 -/

/-- Claim C5: a credential that is falsy, not a string, or lacks the `sk_`
prefix makes construction fail with a Validation error, with no dispatch
call issued (the probe never runs). -/
theorem C5_construction_validation (api_key : PyVal) (api_url : String) (vs : Bool)
    (t : TransportResult) (h : validKeyFormat api_key = false) :
    (clientInit api_key api_url vs t).1 = [] ∧
    ∃ e : APIErr, (clientInit api_key api_url vs t).2 = .apiErr e ∧
      e.kind = .validation := by
  cases api_key with
  | none => exact ⟨rfl, ⟨_, rfl, rfl⟩⟩
  | int n => exact ⟨rfl, ⟨_, rfl, rfl⟩⟩
  | boolean b => exact ⟨rfl, ⟨_, rfl, rfl⟩⟩
  | str s =>
    by_cases h1 : s = ""
    · subst h1
      exact ⟨rfl, ⟨_, rfl, rfl⟩⟩
    · have h2 : pyStartsWith s "sk_" = false := by
        simpa [validKeyFormat, h1] using h
      refine ⟨by simp [clientInit, h1, h2],
        ⟨⟨.validation, "Invalid API key format. Must start with \x27sk_\x27",
          Option.none, Option.none⟩, by simp [clientInit, h1, h2], rfl⟩⟩

/-- Claim C5 (witness): the theorem applied to the concrete credential
"bad_key". -/
theorem C5_construction_validation_witness :
    (clientInit (.str "bad_key") "u" true (.response ⟨200, Option.none, ""⟩)).1 = [] ∧
    ∃ e : APIErr,
      (clientInit (.str "bad_key") "u" true (.response ⟨200, Option.none, ""⟩)).2 =
        .apiErr e ∧ e.kind = .validation :=
  C5_construction_validation (.str "bad_key") "u" true
    (.response ⟨200, Option.none, ""⟩) (by decide)

/-! ## Claim C6 -/

/-- Claim C6: a publish call with an empty title, an empty content, or a
frontmatter value that is not a dict fails with a Validation error and
issues no dispatch call. -/
theorem C6_publish_validation (c : Client) (title content file_path : String)
    (fm : JVal) (images : List (String × List Nat)) (t : TransportResult)
    (h : title = "" ∨ content = "" ∨ fm.isObj = false) :
    (publish_article c title content fm images file_path t).1 = [] ∧
    ∃ e : APIErr,
      (publish_article c title content fm images file_path t).2 = .apiErr e ∧
      e.kind = .validation := by
  by_cases h1 : title = "" ∨ content = ""
  · unfold publish_article
    rw [if_pos h1]
    exact ⟨rfl, ⟨_, rfl, rfl⟩⟩
  · have h2 : fm.isObj = false := by tauto
    unfold publish_article
    rw [if_neg h1, if_pos (by rw [h2]; rfl)]
    exact ⟨rfl, ⟨_, rfl, rfl⟩⟩

/-- Claim C6 (witness): the theorem applied to a concrete publish call
with an empty title. -/
theorem C6_publish_validation_witness :
    (publish_article testClient "" "x" (JVal.obj []) [] "f.md"
        (.response ⟨200, Option.none, ""⟩)).1 = [] ∧
    ∃ e : APIErr,
      (publish_article testClient "" "x" (JVal.obj []) [] "f.md"
          (.response ⟨200, Option.none, ""⟩)).2 = .apiErr e ∧
      e.kind = .validation :=
  C6_publish_validation testClient "" "x" "f.md" (JVal.obj []) []
    (.response ⟨200, Option.none, ""⟩) (Or.inl rfl)

/-! ## Claims C7, C8, C9, C10 -/

theorem PyOutcome.bind_def {α β : Type} (x : PyOutcome α) (f : α → PyOutcome β) :
    (x >>= f) = PyOutcome.bind x f := rfl

theorem PyOutcome.pure_def {α : Type} (a : α) :
    (pure a : PyOutcome α) = .ok a := rfl

theorem PyOutcome.bind_ok_iff {α β : Type} (x : PyOutcome α) (f : α → PyOutcome β)
    (b : β) : PyOutcome.bind x f = .ok b ↔ ∃ a, x = .ok a ∧ f a = .ok b := by
  cases x <;> simp [PyOutcome.bind]

/-- Claim C7: a publish whose dispatch returns status 200 with a JSON
object containing `article_id`, `published_id`, `web_url` and `created_at`
but no `images` key yields a `PublishResponse` with exactly those values
and an empty image map. -/
theorem C7_publish_success_mapping (c : Client) (title content file_path text : String)
    (fm : JVal) (images : List (String × List Nat)) (fs : List (String × JVal))
    (aid pid wurl cat : JVal)
    (ht : title ≠ "") (hc : content ≠ "") (hf : fm.isObj = true)
    (h1 : fs.lookup "article_id" = some aid)
    (h2 : fs.lookup "published_id" = some pid)
    (h3 : fs.lookup "web_url" = some wurl)
    (h4 : fs.lookup "created_at" = some cat)
    (h5 : fs.lookup "images" = Option.none) :
    (publish_article c title content fm images file_path
        (.response ⟨200, some (.obj fs), text⟩)).2 =
      .ok ⟨true, aid, pid, wurl, .obj [], cat⟩ := by
  have hvc : ¬ (title = "" ∨ content = "") := by tauto
  have hobj : ¬ ((!fm.isObj) = true) := by rw [hf]; simp
  have hsend : ∀ a : RequestArgs,
      sendRequest a (.response ⟨200, some (.obj fs), text⟩) =
        .ok ⟨200, some (.obj fs), text⟩ := fun _ => rfl
  have e1 : jIndex (.obj fs) "article_id" = .ok aid := by simp [jIndex, h1]
  have e2 : jIndex (.obj fs) "published_id" = .ok pid := by simp [jIndex, h2]
  have e3 : jIndex (.obj fs) "web_url" = .ok wurl := by simp [jIndex, h3]
  have e4 : jIndex (.obj fs) "created_at" = .ok cat := by simp [jIndex, h4]
  have e5 : jGetD (.obj fs) "images" (.obj []) = .ok (.obj []) := by simp [jGetD, h5]
  unfold publish_article
  rw [if_neg hvc, if_neg hobj]
  dsimp only
  unfold dispatchPublish
  rw [hsend _]
  simp [parsePublishResponse, PyOutcome.bind_def, PyOutcome.pure_def, PyOutcome.bind,
    e1, e2, e3, e4, e5]

/-- Claim C7 (witness): the theorem applied to the concrete response body
from the spec example. -/
theorem C7_publish_success_mapping_witness :
    (publish_article testClient "t" "c" (JVal.obj []) [] "f.md"
        (.response ⟨200, some (.obj
          [("article_id", JVal.str "art_1"), ("published_id", JVal.str "pub_1"),
           ("web_url", JVal.str "https://x/pub_1"),
           ("created_at", JVal.str "2024-01-01T00:00:00Z")]), "raw"⟩)).2 =
      .ok ⟨true, JVal.str "art_1", JVal.str "pub_1", JVal.str "https://x/pub_1",
           JVal.obj [], JVal.str "2024-01-01T00:00:00Z"⟩ :=
  C7_publish_success_mapping testClient "t" "c" "f.md" "raw" (JVal.obj []) []
    [("article_id", JVal.str "art_1"), ("published_id", JVal.str "pub_1"),
     ("web_url", JVal.str "https://x/pub_1"),
     ("created_at", JVal.str "2024-01-01T00:00:00Z")]
    (JVal.str "art_1") (JVal.str "pub_1") (JVal.str "https://x/pub_1")
    (JVal.str "2024-01-01T00:00:00Z")
    (by decide) (by decide) rfl rfl rfl rfl rfl rfl

/-- Claim C8: on every valid publish call the `frontmatter` entry of the
transmitted payload is the single JSON-serialized string of the
frontmatter dict, both when the body is JSON-encoded and when it is sent
as multipart form fields. -/
theorem C8_frontmatter_string_field (c : Client) (title content file_path : String)
    (fm : JVal) (images : List (String × List Nat)) (t : TransportResult)
    (ht : title ≠ "") (hc : content ≠ "") (hf : fm.isObj = true) :
    ∃ args : RequestArgs,
      (publish_article c title content fm images file_path t).1 = [args] ∧
      args.data = some (publishPayload title content fm file_path) ∧
      (publishPayload title content fm file_path).lookup "frontmatter" =
        some (.str (jsonDumps fm)) ∧
      (match encodeRequest args with
       | .jsonBody (.obj flds) =>
          flds.lookup "frontmatter" = some (JVal.str (jsonDumps fm))
       | .multipart flds _ =>
          flds.lookup "frontmatter" = some (JVal.str (jsonDumps fm))
       | _ => False) := by
  have hvc : ¬ (title = "" ∨ content = "") := by tauto
  have hobj : ¬ ((!fm.isObj) = true) := by rw [hf]; simp
  unfold publish_article
  rw [if_neg hvc, if_neg hobj]
  refine ⟨_, rfl, rfl, rfl, ?_⟩
  cases images with
  | nil => exact rfl
  | cons p rest => exact rfl

/-- Claim C8 (witness): the theorem applied to a concrete publish call
with one image (the multipart path). -/
theorem C8_frontmatter_string_field_witness :
    ∃ args : RequestArgs,
      (publish_article testClient "t" "c" (JVal.obj []) [("a.png", [1, 2])] "f.md"
          (.response ⟨200, some (JVal.obj []), ""⟩)).1 = [args] ∧
      args.data = some (publishPayload "t" "c" (JVal.obj []) "f.md") ∧
      (publishPayload "t" "c" (JVal.obj []) "f.md").lookup "frontmatter" =
        some (.str (jsonDumps (JVal.obj []))) ∧
      (match encodeRequest args with
       | .jsonBody (.obj flds) =>
          flds.lookup "frontmatter" = some (JVal.str (jsonDumps (JVal.obj [])))
       | .multipart flds _ =>
          flds.lookup "frontmatter" = some (JVal.str (jsonDumps (JVal.obj [])))
       | _ => False) :=
  C8_frontmatter_string_field testClient "t" "c" "f.md" (JVal.obj [])
    [("a.png", [1, 2])] (.response ⟨200, some (JVal.obj []), ""⟩)
    (by decide) (by decide) rfl

/-- Claim C9: a delete whose dispatch returns status 200 with a JSON
object containing `article_id`, `published_id` and `deleted_at` but no
`archived` key yields a `DeleteResponse` whose `archived` is `True`. -/
theorem C9_delete_archived_default (c : Client) (pid text : String)
    (fs : List (String × JVal)) (aid pid2 dat : JVal)
    (h1 : fs.lookup "article_id" = some aid)
    (h2 : fs.lookup "published_id" = some pid2)
    (h3 : fs.lookup "deleted_at" = some dat)
    (h4 : fs.lookup "archived" = Option.none) :
    (delete_article c pid (.response ⟨200, some (.obj fs), text⟩)).2 =
      .ok ⟨true, aid, pid2, dat, .bool true⟩ := by
  have hsend : ∀ a : RequestArgs,
      sendRequest a (.response ⟨200, some (.obj fs), text⟩) =
        .ok ⟨200, some (.obj fs), text⟩ := fun _ => rfl
  have e1 : jIndex (.obj fs) "article_id" = .ok aid := by simp [jIndex, h1]
  have e2 : jIndex (.obj fs) "published_id" = .ok pid2 := by simp [jIndex, h2]
  have e3 : jIndex (.obj fs) "deleted_at" = .ok dat := by simp [jIndex, h3]
  have e4 : jGetD (.obj fs) "archived" (.bool true) = .ok (.bool true) := by
    simp [jGetD, h4]
  unfold delete_article
  dsimp only
  unfold dispatchDelete
  rw [hsend _]
  simp [parseDeleteResponse, PyOutcome.bind_def, PyOutcome.pure_def, PyOutcome.bind,
    e1, e2, e3, e4]

/-- Claim C9 (witness): the theorem applied to a concrete delete response
that omits `archived`. -/
theorem C9_delete_archived_default_witness :
    (delete_article testClient "pub_1"
        (.response ⟨200, some (.obj
          [("article_id", JVal.str "art_1"), ("published_id", JVal.str "pub_1"),
           ("deleted_at", JVal.str "2024-01-02T00:00:00Z")]), "raw"⟩)).2 =
      .ok ⟨true, JVal.str "art_1", JVal.str "pub_1",
           JVal.str "2024-01-02T00:00:00Z", JVal.bool true⟩ :=
  C9_delete_archived_default testClient "pub_1" "raw"
    [("article_id", JVal.str "art_1"), ("published_id", JVal.str "pub_1"),
     ("deleted_at", JVal.str "2024-01-02T00:00:00Z")]
    (JVal.str "art_1") (JVal.str "pub_1") (JVal.str "2024-01-02T00:00:00Z")
    rfl rfl rfl rfl

theorem parsePublishResponse_success (r : HTTPResponse) (pr : PublishResponse)
    (h : parsePublishResponse r = .ok pr) : pr.success = true := by
  unfold parsePublishResponse at h
  cases hb : r.body with
  | none => rw [hb] at h; exact PyOutcome.noConfusion h
  | some j =>
    rw [hb] at h
    simp only [PyOutcome.bind_def, PyOutcome.pure_def, PyOutcome.bind_ok_iff,
      PyOutcome.ok.injEq] at h
    obtain ⟨a1, -, a2, -, a3, -, a4, -, a5, -, h⟩ := h
    rw [← h]

theorem parseDeleteResponse_success (r : HTTPResponse) (dr : DeleteResponse)
    (h : parseDeleteResponse r = .ok dr) : dr.success = true := by
  unfold parseDeleteResponse at h
  cases hb : r.body with
  | none => rw [hb] at h; exact PyOutcome.noConfusion h
  | some j =>
    rw [hb] at h
    simp only [PyOutcome.bind_def, PyOutcome.pure_def, PyOutcome.bind_ok_iff,
      PyOutcome.ok.injEq] at h
    obtain ⟨a1, -, a2, -, a3, -, a4, -, h⟩ := h
    rw [← h]

theorem dispatchPublish_success (args : RequestArgs) (t : TransportResult)
    (pr : PublishResponse) (h : dispatchPublish args t = .ok pr) :
    pr.success = true := by
  unfold dispatchPublish at h
  cases hs : sendRequest args t with
  | ok r => rw [hs] at h; exact parsePublishResponse_success r pr h
  | apiErr e => rw [hs] at h; exact PyOutcome.noConfusion h
  | pyExc n => rw [hs] at h; exact PyOutcome.noConfusion h

theorem dispatchDelete_success (args : RequestArgs) (t : TransportResult)
    (dr : DeleteResponse) (h : dispatchDelete args t = .ok dr) :
    dr.success = true := by
  unfold dispatchDelete at h
  cases hs : sendRequest args t with
  | ok r => rw [hs] at h; exact parseDeleteResponse_success r dr h
  | apiErr e => rw [hs] at h; exact PyOutcome.noConfusion h
  | pyExc n => rw [hs] at h; exact PyOutcome.noConfusion h

/-- Claim C10: every `PublishResponse` a publish call returns and every
`DeleteResponse` a delete call returns has `success = True`; no operation
ever returns a result record with `success = False`. -/
theorem C10_success_always_true (c : Client) (title content file_path pid : String)
    (fm : JVal) (images : List (String × List Nat)) (t : TransportResult) :
    (∀ pr : PublishResponse,
        (publish_article c title content fm images file_path t).2 = .ok pr →
        pr.success = true) ∧
    (∀ dr : DeleteResponse,
        (delete_article c pid t).2 = .ok dr → dr.success = true) := by
  constructor
  · intro pr h
    unfold publish_article at h
    by_cases h1 : title = "" ∨ content = ""
    · rw [if_pos h1] at h
      exact PyOutcome.noConfusion h
    · rw [if_neg h1] at h
      by_cases h2 : (!fm.isObj) = true
      · rw [if_pos h2] at h
        exact PyOutcome.noConfusion h
      · rw [if_neg h2] at h
        exact dispatchPublish_success _ t pr h
  · intro dr h
    exact dispatchDelete_success _ t dr h

/-- Claim C10 (witness): the theorem applied to a concrete successful
publish and a concrete successful delete. -/
theorem C10_success_always_true_witness :
    ({ success := true, article_id := JVal.str "art_1",
       published_id := JVal.str "pub_1", web_url := JVal.str "https://x/pub_1",
       images := JVal.obj [], created_at := JVal.str "2024-01-01T00:00:00Z"
       : PublishResponse }).success = true ∧
    ({ success := true, article_id := JVal.str "art_1",
       published_id := JVal.str "pub_1",
       deleted_at := JVal.str "2024-01-02T00:00:00Z", archived := JVal.bool true
       : DeleteResponse }).success = true :=
  ⟨(C10_success_always_true testClient "t" "c" "f.md" "pub_1" (JVal.obj []) []
      (.response ⟨200, some (.obj
        [("article_id", JVal.str "art_1"), ("published_id", JVal.str "pub_1"),
         ("web_url", JVal.str "https://x/pub_1"),
         ("created_at", JVal.str "2024-01-01T00:00:00Z"),
         ("deleted_at", JVal.str "2024-01-02T00:00:00Z")]), "raw"⟩)).1 _ rfl,
   (C10_success_always_true testClient "t" "c" "f.md" "pub_1" (JVal.obj []) []
      (.response ⟨200, some (.obj
        [("article_id", JVal.str "art_1"), ("published_id", JVal.str "pub_1"),
         ("web_url", JVal.str "https://x/pub_1"),
         ("created_at", JVal.str "2024-01-01T00:00:00Z"),
         ("deleted_at", JVal.str "2024-01-02T00:00:00Z")]), "raw"⟩)).2 _ rfl⟩

end BugBountyKSP
